import Mathlib

/-!
Shallow embedding of `subsession/__init__.py`.

Python module objects are identified by numeric ids (`ModuleId`): two module
objects are the same object exactly when their ids are equal.  `sys.modules`,
`os.environ` and the session tables are Python dicts, modelled pointwise as
`String → Option _` (deleting the keys of a dict while iterating over another
dict's keys is a family of independent pointwise deletions, so the pointwise
model is faithful).  The interpreter's baseline `builtins.__import__` is
`origImport`: it consults the registry first and otherwise asks the loader,
which can create a module for a name exactly when some entry of `sys.path`
provides it (the `fs` field of `World`); a freshly created module gets the
world's `counter` as its id, and the counter increases, so a fresh object is
distinct from every object created earlier.  While a session is active the
installed hook is `Session.isolatedImport`, which delegates to the saved
original hook and records the result, exactly as `Session._isolated_import`
does.  Replacing `os.environ` / `sys.path` by the session's own objects and
the later in-place mutation of those same objects (`update` / `extend` in
`Session.__enter__`) is modelled by computing the final contents once and
storing them both in the world and in the session, which is what the aliasing
produces.
-/

namespace Subsession

/-- Identity of a Python module object. -/
abbrev ModuleId := Nat

/-- A Python dict with string keys, modelled pointwise. -/
abbrev Dict (α : Type) := String → Option α

/-- The empty dict. -/
def Dict.empty {α : Type} : Dict α := fun _ => none

/-- `d[k] = v`. -/
def Dict.insert {α : Type} (d : Dict α) (k : String) (v : α) : Dict α :=
  fun k2 => if k2 = k then some v else d k2

/-- Python `d.update(other)`: entries of `other` win on overlapping keys. -/
def Dict.update {α : Type} (d other : Dict α) : Dict α :=
  fun k => match other k with
  | some v => some v
  | none => d k

/-- `_protected_names` from the source, verbatim. -/
def protectedNames : List String :=
  ["sys", "builtins", "_frozen_importlib", "_imp", "_thread", "_warnings",
   "_weakref", "zipimport", "_frozen_importlib_external", "_io", "marshal",
   "nt", "winreg", "encodings", "codecs", "_codecs", "encodings.aliases",
   "encodings.utf_8", "_signal", "__main__", "encodings.latin_1", "io",
   "abc", "_abc", "site", "os", "stat", "_stat", "_collections_abc",
   "ntpath", "posixpath", "genericpath", "os.path", "_sitebuiltins",
   "atexit"]

/-- The `Session` object.  `original_path`, `original_env`,
`original_sys_modules` and `isolated_modules` are unset before the first
entry (the source only declares their types); they are given empty defaults
here and every claim reads them only after an entry has set them.
`kept_global` is the dead `self.kept_global = dict()` field of the source. -/
structure Session where
  keep_global : List String
  kept_global : Dict ModuleId
  inherit_env : Bool
  isolated_env : Dict String
  inherit_paths : Bool
  isolated_paths : List String
  original_path : List String
  original_env : Dict String
  original_sys_modules : Dict ModuleId
  isolated_modules : Dict ModuleId

/-- The interpreter-global state the session interposes on: `sys.modules`,
`sys.path`, `os.environ`, the supply of fresh module-object identities, and
the loader's knowledge of which path entry can provide which module name. -/
structure World where
  modules : Dict ModuleId
  path : List String
  environ : Dict String
  counter : ModuleId
  fs : String → String → Bool

/-- `Session.__init__`.  `env` and `paths` are optional exactly as in the
source (`env or {}`, `paths or []`). -/
def Session.make (keep_global : List String) (env : Option (Dict String))
    (inherit_env : Bool) (paths : Option (List String))
    (inherit_paths : Bool) : Session :=
  { keep_global := keep_global
    kept_global := Dict.empty
    inherit_env := inherit_env
    isolated_env := env.getD Dict.empty
    inherit_paths := inherit_paths
    isolated_paths := paths.getD []
    original_path := []
    original_env := Dict.empty
    original_sys_modules := Dict.empty
    isolated_modules := Dict.empty }

/-- Whether the loader can produce module `name` from some entry of `path`. -/
def findable (fs : String → String → Bool) (path : List String)
    (name : String) : Bool :=
  path.any fun d => fs d name

/-- Whether the loader can produce module `name` in world `w`. -/
def resolvable (w : World) (name : String) : Bool :=
  findable w.fs w.path name

/-- The runtime's baseline `builtins.__import__`: a cached module is returned
as is; otherwise the loader searches `sys.path` and, on success, a fresh
module object is created, cached, and returned; on failure the resolution
error propagates (`Except.error`). -/
def origImport (w : World) (name : String) : Except Unit (ModuleId × World) :=
  match w.modules name with
  | some m => .ok (m, w)
  | none =>
    if resolvable w name then
      .ok (w.counter,
        { w with modules := w.modules.insert name w.counter,
                 counter := w.counter + 1 })
    else
      .error ()

/-- `Session._isolated_import`: delegate to the saved original hook, then
record the module under `module.__name__` when the requested name is truthy,
not protected, and not kept global.  (For the top-level imports modelled
here, `module.__name__` is the requested name.) -/
def Session.isolatedImport (s : Session) (w : World) (name : String) :
    Except Unit (ModuleId × Session × World) :=
  match origImport w name with
  | .error e => .error e
  | .ok (m, w2) =>
    if name != "" && !(protectedNames.contains name)
        && !(s.keep_global.contains name) then
      .ok (m, { s with isolated_modules := s.isolated_modules.insert name m },
           w2)
    else
      .ok (m, s, w2)

/-- Run `Session._isolated_import` and keep the updated state, or the
unchanged state when the import raised (an import failure mutates nothing
in this model of leaf-module imports). -/
def importOrId (s : Session) (w : World) (name : String) : Session × World :=
  match s.isolatedImport w name with
  | .ok (_, s2, w2) => (s2, w2)
  | .error _ => (s, w)

/-- `Session._patch_sys_modules`: for each name in the entry snapshot
`original_sys_modules`, delete it from the live registry when it is neither
protected nor kept global (and is present).  Names outside the snapshot are
never touched. -/
def Session.patchSysModules (s : Session) (w : World) : World :=
  { w with modules := fun name =>
      if (s.original_sys_modules name).isSome
          && !(protectedNames.contains name)
          && !(s.keep_global.contains name)
          && (w.modules name).isSome then
        none
      else
        w.modules name }

/-- `Session._restore_sys_modules`: re-apply the patch, then merge the entry
snapshot back into the live registry. -/
def Session.restoreSysModules (s : Session) (w : World) : World :=
  let w1 := s.patchSysModules w
  { w1 with modules := Dict.update w1.modules s.original_sys_modules }

/-- `Session.__enter__`: clear `isolated_modules`, snapshot path / environ /
registry, patch the registry, swap in the session's environ and path objects,
then (aliased through `os.environ` / `sys.path`) apply `inherit_env`
(`isolated_env.update(original_env)`) and `inherit_paths`
(`isolated_paths.extend(original_path)`). -/
def Session.enter (s : Session) (w : World) : Session × World :=
  let s1 : Session :=
    { s with isolated_modules := Dict.empty
             original_path := w.path
             original_env := w.environ
             original_sys_modules := w.modules }
  let w1 := s1.patchSysModules w
  let env2 := if s1.inherit_env then
      Dict.update s1.isolated_env s1.original_env
    else
      s1.isolated_env
  let paths2 := if s1.inherit_paths then
      s1.isolated_paths ++ s1.original_path
    else
      s1.isolated_paths
  ({ s1 with isolated_env := env2, isolated_paths := paths2 },
   { w1 with environ := env2, path := paths2 })

/-- `Session.__exit__`: restore the registry, then put back the original
environ, path (and the original hook, which is implicit here). The session
object itself is not modified by exit. -/
def Session.exit (s : Session) (w : World) : World :=
  let w1 := s.restoreSysModules w
  { w1 with environ := s.original_env, path := s.original_path }

/-- Guarded code setting an environment variable while the session is active:
`os.environ` is the session's own `isolated_env` object at that point, so the
write lands in both. -/
def Session.activeSetEnv (s : Session) (w : World) (k v : String) :
    Session × World :=
  ({ s with isolated_env := s.isolated_env.insert k v },
   { w with environ := w.environ.insert k v })

/-- The registry `Session.reload` exposes to the reloaded module: the patch,
then a merge of the session's `isolated_modules`. -/
def Session.reloadPre (s : Session) (w : World) : World :=
  let w1 := s.patchSysModules w
  { w1 with modules := Dict.update w1.modules s.isolated_modules }

/-- `Session.reload`: patch the registry and merge `isolated_modules`, run
the module's re-initialization (`importlib.reload`, here an arbitrary
`reinit` returning an optional raised error and the mutated world), and
restore the registry in a `finally` block; `except Exception: raise` in the
source re-raises unchanged, so the error value passes through as is.  The
source checks nothing about the session's state or the module's membership
before proceeding. -/
def Session.reload {E : Type} (s : Session) (w : World)
    (reinit : World → Option E × World) : Option E × World :=
  let w1 := s.reloadPre w
  let r := reinit w1
  (r.1, s.restoreSysModules r.2)

/-- The module object an import through the session hook yields, when it
succeeds. -/
def importResult (s : Session) (w : World) (n : String) : Option ModuleId :=
  match s.isolatedImport w n with
  | .ok (m, _, _) => some m
  | .error _ => none

/-- Scenario: enter the session, then import `n` once inside it; the
resulting session/world pair. -/
def insideImport (s : Session) (w : World) (n : String) : Session × World :=
  importOrId (s.enter w).1 (s.enter w).2 n

/-- Scenario: the module object importing `n` inside the freshly entered
session yields. -/
def insideResult (s : Session) (w : World) (n : String) : Option ModuleId :=
  importResult (s.enter w).1 (s.enter w).2 n

/-- Scenario: enter, import `n` once inside, exit; the world after exit. -/
def afterExit (s : Session) (w : World) (n : String) : World :=
  (insideImport s w n).1.exit (insideImport s w n).2

/-! Concrete fixtures used by counterexamples and witnesses. -/

/-- A default-configuration session: `Session()`. -/
def s0 : Session := Session.make [] none true none true

/-- A world with one non-protected module `pkgA` cached (id 0), one path
entry, and a loader that can provide `pkgA` and `newmod` from it. -/
def w0 : World :=
  { modules := fun k => if k = "pkgA" then some 0 else none
    path := ["/outer"]
    environ := Dict.empty
    counter := 1
    fs := fun d n => d = "/outer" && (n = "newmod" || n = "pkgA") }

/-- A session constructed with `env={"TEST_ENV": "ctor"}` and the default
`inherit_env=True`. -/
def c2s : Session :=
  Session.make [] (some ((Dict.empty : Dict String).insert "TEST_ENV" "ctor"))
    true none true

/-- A world whose outer environment holds `TEST_ENV=outer`. -/
def c2w : World :=
  { modules := Dict.empty
    path := []
    environ := (Dict.empty : Dict String).insert "TEST_ENV" "outer"
    counter := 0
    fs := fun _ _ => false }

/-- A session with `keep_global=["keptmod"]` for the keep-global witness. -/
def c6s : Session := Session.make ["keptmod"] none true none true

/-- A world whose loader can provide `keptmod`. -/
def c6w : World :=
  { modules := Dict.empty
    path := ["/outer"]
    environ := Dict.empty
    counter := 0
    fs := fun d n => d = "/outer" && n = "keptmod" }

/-- A world holding the protected module `sys` (id 7) and one other. -/
def c7w : World :=
  { modules := fun k => if k = "sys" then some 7 else
      if k = "pkgA" then some 0 else none
    path := ["/outer"]
    environ := Dict.empty
    counter := 8
    fs := fun d n => d = "/outer" && n = "newmod" }

/-- A session that accumulated state in a first active period: its
`isolated_env` holds a key and its `isolated_paths` already contains the
outer path entry inherited then. -/
def c10s : Session :=
  { keep_global := []
    kept_global := Dict.empty
    inherit_env := true
    isolated_env := (Dict.empty : Dict String).insert "SEEN" "yes"
    inherit_paths := true
    isolated_paths := ["/outer"]
    original_path := ["/outer"]
    original_env := Dict.empty
    original_sys_modules := Dict.empty
    isolated_modules := Dict.empty }

/-- The outer world at the second entry of `c10s`. -/
def c10w : World :=
  { modules := Dict.empty
    path := ["/outer"]
    environ := Dict.empty
    counter := 0
    fs := fun _ _ => false }

/-! Helper lemmas about the embedding. -/

theorem Dict.insert_same {α : Type} (d : Dict α) (k : String) (v : α) :
    d.insert k v k = some v := by
  simp [Dict.insert]

theorem Dict.insert_isSome {α : Type} (d : Dict α) (k p : String) (v : α)
    (h : (d p).isSome = true) : ((d.insert k v) p).isSome = true := by
  by_cases hp : p = k <;> simp [Dict.insert, hp, h]

theorem Session.enter_modules (s : Session) (w : World) (n : String) :
    (s.enter w).2.modules n =
      if (w.modules n).isSome && !(protectedNames.contains n)
          && !(s.keep_global.contains n) then
        none
      else
        w.modules n := by
  simp only [Session.enter, Session.patchSysModules]
  have hb : ∀ a p k : Bool, (a && p && k && a) = (a && p && k) := by decide
  rw [hb]

theorem Session.enter_counter (s : Session) (w : World) :
    (s.enter w).2.counter = w.counter := rfl

theorem Session.enter_fs (s : Session) (w : World) :
    (s.enter w).2.fs = w.fs := rfl

theorem Session.enter_environ (s : Session) (w : World) :
    (s.enter w).2.environ =
      (if s.inherit_env then Dict.update s.isolated_env w.environ
       else s.isolated_env) := rfl

theorem Session.enter_path (s : Session) (w : World) :
    (s.enter w).2.path =
      (if s.inherit_paths then s.isolated_paths ++ w.path
       else s.isolated_paths) := by
  cases h : s.inherit_paths <;> simp [Session.enter, h]

theorem Session.enter_isolated_env (s : Session) (w : World) :
    (s.enter w).1.isolated_env =
      (if s.inherit_env then Dict.update s.isolated_env w.environ
       else s.isolated_env) := rfl

theorem Session.enter_isolated_paths (s : Session) (w : World) :
    (s.enter w).1.isolated_paths =
      (if s.inherit_paths then s.isolated_paths ++ w.path
       else s.isolated_paths) := by
  cases h : s.inherit_paths <;> simp [Session.enter, h]

theorem Session.enter_snapshot (s : Session) (w : World) :
    (s.enter w).1.original_sys_modules = w.modules := rfl

theorem Session.enter_original_path (s : Session) (w : World) :
    (s.enter w).1.original_path = w.path := rfl

theorem Session.enter_original_env (s : Session) (w : World) :
    (s.enter w).1.original_env = w.environ := rfl

theorem Session.enter_keep_global (s : Session) (w : World) :
    (s.enter w).1.keep_global = s.keep_global := rfl

theorem Session.enter_isolated_modules (s : Session) (w : World) :
    (s.enter w).1.isolated_modules = Dict.empty := rfl

theorem Session.exit_modules (s : Session) (w : World) (n : String) :
    (s.exit w).modules n =
      match s.original_sys_modules n with
      | some m => some m
      | none => w.modules n := by
  simp only [Session.exit, Session.restoreSysModules, Session.patchSysModules,
    Dict.update]
  cases h : s.original_sys_modules n <;> simp [h]

theorem Session.exit_path (s : Session) (w : World) :
    (s.exit w).path = s.original_path := rfl

theorem Session.exit_environ (s : Session) (w : World) :
    (s.exit w).environ = s.original_env := rfl

theorem Session.exit_counter (s : Session) (w : World) :
    (s.exit w).counter = w.counter := rfl

theorem Session.exit_fs (s : Session) (w : World) :
    (s.exit w).fs = w.fs := rfl

/-- A fresh (uncached, resolvable) import through the session hook: the new
module gets the current counter as identity, is cached in the registry, and
is recorded in `isolated_modules` when not protected and not kept global. -/
theorem Session.isolatedImport_fresh (s : Session) (w : World) (n : String)
    (hnone : w.modules n = none) (hres : resolvable w n = true)
    (hne : n ≠ "") (hprot : n ∉ protectedNames)
    (hkeep : n ∉ s.keep_global) :
    s.isolatedImport w n =
      .ok (w.counter,
        { s with isolated_modules := s.isolated_modules.insert n w.counter },
        { w with modules := w.modules.insert n w.counter,
                 counter := w.counter + 1 }) := by
  have ho : origImport w n =
      .ok (w.counter,
        { w with modules := w.modules.insert n w.counter,
                 counter := w.counter + 1 }) := by
    simp [origImport, hnone, hres]
  have hc : (n != "" && !(protectedNames.contains n)
      && !(s.keep_global.contains n)) = true := by
    simp [hne, hprot, hkeep]
  simp only [Session.isolatedImport, ho]
  rw [hc]
  rfl

/-- A cached import through the session hook returns the cached object and
leaves the registry unchanged. -/
theorem Session.isolatedImport_cached (s : Session) (w : World) (n : String)
    (m : ModuleId) (hsome : w.modules n = some m) :
    s.isolatedImport w n =
      (if n != "" && !(protectedNames.contains n)
          && !(s.keep_global.contains n) then
        .ok (m, { s with isolated_modules := s.isolated_modules.insert n m },
             w)
      else
        .ok (m, s, w)) := by
  simp [Session.isolatedImport, origImport, hsome]

theorem contains_eq_true_of_mem (l : List String) (a : String)
    (h : a ∈ l) : l.contains a = true := by
  simpa using h

theorem contains_eq_false_of_not_mem (l : List String) (a : String)
    (h : a ∉ l) : l.contains a = false := by
  simpa using h
/-- A fresh import of a kept-global name: the module is created and cached
but not recorded in `isolated_modules` (the recording guard is false). -/
theorem Session.isolatedImport_fresh_kept (s : Session) (w : World)
    (n : String) (hnone : w.modules n = none) (hres : resolvable w n = true)
    (hk : n ∈ s.keep_global) :
    s.isolatedImport w n =
      .ok (w.counter, s,
        { w with modules := w.modules.insert n w.counter,
                 counter := w.counter + 1 }) := by
  have ho : origImport w n =
      .ok (w.counter,
        { w with modules := w.modules.insert n w.counter,
                 counter := w.counter + 1 }) := by
    simp [origImport, hnone, hres]
  have hc : (n != "" && !(protectedNames.contains n)
      && !(s.keep_global.contains n)) = false := by
    simp [hk]
  simp only [Session.isolatedImport, ho]
  rw [hc]
  rfl

/-- An import of an unresolvable, uncached name fails. -/
theorem Session.isolatedImport_fail (s : Session) (w : World) (n : String)
    (hnone : w.modules n = none) (hres : resolvable w n = false) :
    s.isolatedImport w n = .error () := by
  simp [Session.isolatedImport, origImport, hnone, hres]

/-- A fresh import, with the recording guard left symbolic. -/
theorem Session.isolatedImport_none (s : Session) (w : World) (n : String)
    (hnone : w.modules n = none) (hres : resolvable w n = true) :
    s.isolatedImport w n =
      .ok (w.counter,
        (if (n != "" && !(protectedNames.contains n)
            && !(s.keep_global.contains n)) = true then
          { s with isolated_modules := s.isolated_modules.insert n w.counter }
        else s),
        { w with modules := w.modules.insert n w.counter,
                 counter := w.counter + 1 }) := by
  have ho : origImport w n =
      .ok (w.counter,
        { w with modules := w.modules.insert n w.counter,
                 counter := w.counter + 1 }) := by
    simp [origImport, hnone, hres]
  simp only [Session.isolatedImport, ho]
  by_cases hc : (n != "" && !(protectedNames.contains n)
      && !(s.keep_global.contains n)) = true
  · rw [if_pos hc, if_pos hc]
  · rw [if_neg hc, if_neg hc]

theorem importResult_cached (s : Session) (w : World) (n : String)
    (m : ModuleId) (hmod : w.modules n = some m) :
    importResult s w n = some m := by
  unfold importResult
  rw [Session.isolatedImport_cached s w n m hmod]
  by_cases hc : (n != "" && !(protectedNames.contains n)
      && !(s.keep_global.contains n)) = true
  · rw [if_pos hc]
  · rw [if_neg hc]

theorem importResult_fresh (s : Session) (w : World) (n : String)
    (hnone : w.modules n = none) (hres : resolvable w n = true) :
    importResult s w n = some w.counter := by
  unfold importResult
  rw [Session.isolatedImport_none s w n hnone hres]

theorem importResult_fail (s : Session) (w : World) (n : String)
    (hnone : w.modules n = none) (hres : resolvable w n = false) :
    importResult s w n = none := by
  unfold importResult
  rw [Session.isolatedImport_fail s w n hnone hres]

theorem importOrId_snd_cached (s : Session) (w : World) (n : String)
    (m : ModuleId) (hmod : w.modules n = some m) :
    (importOrId s w n).2 = w := by
  unfold importOrId
  rw [Session.isolatedImport_cached s w n m hmod]
  by_cases hc : (n != "" && !(protectedNames.contains n)
      && !(s.keep_global.contains n)) = true
  · rw [if_pos hc]
  · rw [if_neg hc]

theorem importOrId_snd_fresh (s : Session) (w : World) (n : String)
    (hnone : w.modules n = none) (hres : resolvable w n = true) :
    (importOrId s w n).2 =
      { w with modules := w.modules.insert n w.counter,
               counter := w.counter + 1 } := by
  unfold importOrId
  rw [Session.isolatedImport_none s w n hnone hres]

theorem importOrId_fail (s : Session) (w : World) (n : String)
    (hnone : w.modules n = none) (hres : resolvable w n = false) :
    importOrId s w n = (s, w) := by
  unfold importOrId
  rw [Session.isolatedImport_fail s w n hnone hres]

/-- The session fields other than `isolated_modules` are untouched by
the import hook. -/
theorem importOrId_fst_fields (s : Session) (w : World) (n : String) :
    (importOrId s w n).1.original_sys_modules = s.original_sys_modules ∧
    (importOrId s w n).1.keep_global = s.keep_global ∧
    (importOrId s w n).1.original_path = s.original_path ∧
    (importOrId s w n).1.original_env = s.original_env ∧
    (importOrId s w n).1.isolated_env = s.isolated_env := by
  cases hmod : w.modules n with
  | some m =>
    unfold importOrId
    rw [Session.isolatedImport_cached s w n m hmod]
    by_cases hc : (n != "" && !(protectedNames.contains n)
        && !(s.keep_global.contains n)) = true
    · rw [if_pos hc]
      exact ⟨rfl, rfl, rfl, rfl, rfl⟩
    · rw [if_neg hc]
      exact ⟨rfl, rfl, rfl, rfl, rfl⟩
  | none =>
    cases hres : resolvable w n with
    | true =>
      unfold importOrId
      rw [Session.isolatedImport_none s w n hmod hres]
      by_cases hc : (n != "" && !(protectedNames.contains n)
          && !(s.keep_global.contains n)) = true
      · rw [if_pos hc]
        exact ⟨rfl, rfl, rfl, rfl, rfl⟩
      · rw [if_neg hc]
        exact ⟨rfl, rfl, rfl, rfl, rfl⟩
    | false =>
      rw [importOrId_fail s w n hmod hres]
      exact ⟨rfl, rfl, rfl, rfl, rfl⟩

/-- The import hook never removes a registry entry. -/
theorem importOrId_modules_isSome (s : Session) (w : World) (n k : String)
    (hk : (w.modules k).isSome = true) :
    ((importOrId s w n).2.modules k).isSome = true := by
  cases hmod : w.modules n with
  | some m => rw [importOrId_snd_cached s w n m hmod]; exact hk
  | none =>
    cases hres : resolvable w n with
    | true =>
      rw [importOrId_snd_fresh s w n hmod hres]
      exact Dict.insert_isSome _ _ _ _ hk
    | false =>
      rw [importOrId_fail s w n hmod hres]
      exact hk

/-- After a successful import of `n`, the registry maps `n` to the returned
module. -/
theorem importOrId_caches (s : Session) (w : World) (n : String)
    (m : ModuleId) (h : importResult s w n = some m) :
    (importOrId s w n).2.modules n = some m := by
  cases hmod : w.modules n with
  | some j =>
    have hj := importResult_cached s w n j hmod
    rw [hj] at h
    rw [importOrId_snd_cached s w n j hmod, hmod]
    exact h
  | none =>
    cases hres : resolvable w n with
    | true =>
      have hj := importResult_fresh s w n hmod hres
      rw [hj] at h
      rw [importOrId_snd_fresh s w n hmod hres]
      exact (Dict.insert_same _ _ _).trans h
    | false =>
      have hj := importResult_fail s w n hmod hres
      rw [hj] at h
      exact absurd h (by simp)

theorem one_le_count_of_mem (l : List String) (a : String) (h : a ∈ l) :
    1 ≤ l.count a :=
  List.count_pos_iff.mpr h
/-! Claim theorems. -/

/-- Claim C1 (amended): after `__exit__`, a name present in the entry
snapshot maps to exactly its snapshot value, and a name absent from the
entry snapshot keeps whatever entry the live registry held when exit began.
Consequently a module first loaded during the session under a name absent
from the entry snapshot remains in the registry after exit (see the
counterexample): `_patch_sys_modules` only iterates over the snapshot's
keys, so the re-applied patch at exit never strips such names.  Here `w` is
the world at entry and `wmid` the world when exit runs, after whatever the
guarded code did. -/
theorem c1_exit_restores_only_snapshot_names (s : Session) (w wmid : World)
    (n : String) :
    ((s.enter w).1.exit wmid).modules n =
      match w.modules n with
      | some m => some m
      | none => wmid.modules n := by
  have h := Session.exit_modules (s.enter w).1 wmid n
  rw [Session.enter_snapshot] at h
  exact h

/-- Claim C1 counterexample: in `w0` the registry has no entry for
`newmod` and the loader can provide it.  Enter a default session, import
`newmod` inside it (it gets the fresh identity 1), and exit.  The claim
says the registry's mapping for the non-protected name `newmod` is restored
to its pre-entry state (absent); in fact the session's module is still
there after exit. -/
theorem c1_counterexample :
    w0.modules "newmod" = none ∧
    (s0.enter w0).1.original_sys_modules "newmod" = none ∧
    insideResult s0 w0 "newmod" = some 1 ∧
    (afterExit s0 w0 "newmod").modules "newmod" = some 1 := by
  refine ⟨rfl, rfl, by decide, by decide⟩

/-- Claim C2: the code at the failing input.  `c2s` is constructed with
`env={"TEST_ENV": "ctor"}` and `inherit_env=True`; the outer environment
holds `TEST_ENV=outer`.  The claim (and the `__init__` docstring) say the
construction-time value wins, but `__enter__` runs
`isolated_env.update(original_env)`, whose `update` lets the inherited
entries overwrite the constructor-provided ones: inside the session the
value is the outer `"outer"`, not `"ctor"`. -/
theorem c2_inherited_value_overwrites_constructor_value :
    c2s.isolated_env "TEST_ENV" = some "ctor" ∧
    (c2s.enter c2w).2.environ "TEST_ENV" = some "outer" ∧
    (c2s.enter c2w).1.isolated_env "TEST_ENV" = some "outer" := by
  refine ⟨by decide, by decide, by decide⟩

/-- Claim C3 (amended): `reload` performs no precondition check at all — the
source consults neither an activity flag (none exists) nor membership of the
module in `isolated_modules`.  Whatever the session's state, the call
proceeds: the only error it can surface is the one the re-initialization
itself raises. -/
theorem c3_reload_has_no_precondition_check {E : Type} (s : Session)
    (w : World) (reinit : World → Option E × World) :
    (s.reload w reinit).1 = (reinit (s.reloadPre w)).1 := rfl

/-- Claim C3 counterexample: run a full enter/import/exit lifecycle, so the
session is no longer active, and call `reload` for a module (`ghost`) that
is not a member of `isolated_modules`, with a re-initialization that
succeeds.  The claim says the call fails fast with a usage error; instead it
proceeds and returns without any error. -/
theorem c3_counterexample :
    (insideImport s0 w0 "newmod").1.isolated_modules "ghost" = none ∧
    ((insideImport s0 w0 "newmod").1.reload (afterExit s0 w0 "newmod")
      (fun w => ((none : Option Unit), w))).1 = none := by
  refine ⟨by decide, rfl⟩

/-- Claim C4 (amended): `__enter__` contains no already-active check and no
raise or assert, so it cannot fail; entering an already-active session
silently proceeds and re-snapshots the current (already patched and
isolated) state into `original_sys_modules` / `original_env` /
`original_path`, discarding the outer snapshots the first entry saved. -/
theorem c4_reenter_overwrites_snapshots (s : Session) (w : World) :
    (((s.enter w).1.enter (s.enter w).2).1).original_sys_modules
        = (s.enter w).2.modules ∧
    (((s.enter w).1.enter (s.enter w).2).1).original_env
        = (s.enter w).2.environ ∧
    (((s.enter w).1.enter (s.enter w).2).1).original_path
        = (s.enter w).2.path := ⟨rfl, rfl, rfl⟩

/-- Claim C4 counterexample: entering `s0` twice in a row from `w0`
returns normally (the embedded `enter`, like the source's `__enter__`, has
no failure path), and after the second entry the saved registry snapshot no
longer knows the outer module `pkgA`: the double entry succeeded and
silently destroyed the pre-entry snapshot, instead of failing as the claim
requires. -/
theorem c4_counterexample :
    w0.modules "pkgA" = some 0 ∧
    (((s0.enter w0).1.enter (s0.enter w0).2).1).original_sys_modules "pkgA"
        = none ∧
    (((s0.enter w0).1.enter (s0.enter w0).2).2).modules "pkgA" = none := by
  refine ⟨rfl, by decide, by decide⟩

/-- Claim C8: in `reload`, restoration of the live registry
(`_restore_sys_modules`, the strip-and-merge of the entry snapshot) is
applied to the post-re-initialization world on the success path and on the
failure path alike (the `finally` block), and the error value of the
re-initialization — `none` for success, `some e` for a raised exception —
reaches the caller unchanged (`except Exception: raise` re-raises the same
exception). -/
theorem c8_reload_restores_unconditionally {E : Type} (s : Session)
    (w : World) (reinit : World → Option E × World) :
    s.reload w reinit =
      ((reinit (s.reloadPre w)).1,
       s.restoreSysModules (reinit (s.reloadPre w)).2) := rfl

/-- Claim C7: no session operation ever removes a protected name's entry
from the shared registry, whatever the configuration: the entry patch of
`__enter__` leaves the entry untouched, the import hook only adds entries,
and `__exit__`, the pre-reload patch-and-merge, and `_restore_sys_modules`
all keep the entry present. -/
theorem c7_protected_never_removed (p : String) (s : Session) (w : World)
    (n : String) (hp : p ∈ protectedNames)
    (hw : (w.modules p).isSome = true) :
    (s.enter w).2.modules p = w.modules p ∧
    ((importOrId s w n).2.modules p).isSome = true ∧
    ((s.exit w).modules p).isSome = true ∧
    ((s.reloadPre w).modules p).isSome = true ∧
    ((s.restoreSysModules w).modules p).isSome = true := by
  have hpc : protectedNames.contains p = true := contains_eq_true_of_mem _ _ hp
  refine ⟨?_, importOrId_modules_isSome s w n p hw, ?_, ?_, ?_⟩
  · rw [Session.enter_modules]
    simp [hp]
  · rw [Session.exit_modules]
    cases h : s.original_sys_modules p <;> simp [h, hw]
  · unfold Session.reloadPre Session.patchSysModules Dict.update
    cases h : s.isolated_modules p with
    | some v => simp [h]
    | none => simp [h, hp, hw]
  · unfold Session.restoreSysModules Session.patchSysModules Dict.update
    cases h : s.original_sys_modules p with
    | some v => simp [h]
    | none => simp [h, hp, hw]

/-- Claim C7 witness: the protected name `sys` (resident as id 7 in `c7w`)
survives entry, an import, exit, the pre-reload merge, and restoration of a
default session. -/
theorem c7_witness :
    (s0.enter c7w).2.modules "sys" = c7w.modules "sys" ∧
    ((importOrId s0 c7w "newmod").2.modules "sys").isSome = true ∧
    ((s0.exit c7w).modules "sys").isSome = true ∧
    ((s0.reloadPre c7w).modules "sys").isSome = true ∧
    ((s0.restoreSysModules c7w).modules "sys").isSome = true :=
  c7_protected_never_removed "sys" s0 c7w "newmod" (by decide) (by decide)

/-- Claim C9: within one active period, when an import of `n` through the
session hook succeeds with module `m`, importing `n` again in the resulting
state succeeds as well and returns the identical module object `m` (the
first import cached it in the registry, and the hook delegates to the
registry-consulting resolution first). -/
theorem c9_second_import_returns_identical_module (s : Session) (w : World)
    (n : String) (m : ModuleId) (h : importResult s w n = some m) :
    importResult (importOrId s w n).1 (importOrId s w n).2 n = some m :=
  importResult_cached _ _ _ _ (importOrId_caches s w n m h)

/-- Claim C9 witness: inside an active default session on `w0`, a first
use of the hook on `newmod` yields module 1, and the repeated import
yields the identical module 1. -/
theorem c9_witness :
    importResult (importOrId (s0.enter w0).1 (s0.enter w0).2 "newmod").1
      (importOrId (s0.enter w0).1 (s0.enter w0).2 "newmod").2 "newmod"
      = some 1 :=
  c9_second_import_returns_identical_module (s0.enter w0).1 (s0.enter w0).2
    "newmod" 1 (by decide)

/-- Claim C10: a re-entered session keeps its accumulated `isolated_env` and
`isolated_paths` rather than resetting them to the constructor
configuration: a key present in `isolated_env` when the second entry begins
(whether inherited during the first period or written by guarded code while
`os.environ` was aliased to it) is still visible inside the second period,
and with `inherit_paths` true the outer entries are appended once more, so
an entry already inherited during the first use occurs at least twice. -/
theorem c10_reentry_accumulates (s : Session) (w : World) (k v p : String)
    (hk : s.isolated_env k = some v)
    (hip : s.inherit_paths = true)
    (hp1 : p ∈ s.isolated_paths) (hp2 : p ∈ w.path) :
    ((s.enter w).1.isolated_env k).isSome = true ∧
    ((s.enter w).2.environ k).isSome = true ∧
    (s.enter w).1.isolated_paths = s.isolated_paths ++ w.path ∧
    (s.enter w).2.path = s.isolated_paths ++ w.path ∧
    2 ≤ ((s.enter w).1.isolated_paths.count p) := by
  have henv : ((if s.inherit_env then Dict.update s.isolated_env w.environ
      else s.isolated_env) k).isSome = true := by
    cases hie : s.inherit_env with
    | false => simp [hk]
    | true =>
      simp only [if_true]
      cases ho : w.environ k with
      | some u => simp [Dict.update, ho]
      | none => simp [Dict.update, ho, hk]
  have hpaths : (s.enter w).1.isolated_paths
      = s.isolated_paths ++ w.path := by
    rw [Session.enter_isolated_paths, if_pos hip]
  refine ⟨?_, ?_, hpaths, ?_, ?_⟩
  · rw [Session.enter_isolated_env]
    exact henv
  · rw [Session.enter_environ]
    exact henv
  · rw [Session.enter_path, if_pos hip]
  · rw [hpaths, List.count_append]
    have h1 := one_le_count_of_mem _ _ hp1
    have h2 := one_le_count_of_mem _ _ hp2
    omega

/-- Claim C10 witness: `c10s` ended its first active period with `SEEN=yes`
in `isolated_env` and the inherited `/outer` already in `isolated_paths`;
on the second entry the key is still visible and `/outer` is appended
again, occurring twice. -/
theorem c10_witness :
    ((c10s.enter c10w).1.isolated_env "SEEN").isSome = true ∧
    ((c10s.enter c10w).2.environ "SEEN").isSome = true ∧
    (c10s.enter c10w).1.isolated_paths
        = c10s.isolated_paths ++ c10w.path ∧
    (c10s.enter c10w).2.path = c10s.isolated_paths ++ c10w.path ∧
    2 ≤ ((c10s.enter c10w).1.isolated_paths.count "/outer") :=
  c10_reentry_accumulates c10s c10w "SEEN" "yes" "/outer" (by decide) rfl
    (by decide) (by decide)

/-- Claim C6: for a name in `keep_global`, the module seen inside the
session is the identical object seen outside, in both orders.  If the name
was imported before entry (registry holds `a`), the patch keeps it, the
inside import returns the same `a`, and after exit the registry still holds
`a`.  If the name is first imported inside the session (fresh object
`w.counter`), it is not recorded in `isolated_modules`, survives exit
because the exit patch only strips snapshot names, and importing it outside
after exit returns the identical object. -/
theorem c6_keep_global_shared_identity (s : Session) (w : World) (n : String)
    (hkeep : n ∈ s.keep_global)
    (hres : resolvable (s.enter w).2 n = true) :
    insideResult s w n = some (match w.modules n with
      | some a => a
      | none => w.counter) ∧
    (afterExit s w n).modules n = some (match w.modules n with
      | some a => a
      | none => w.counter) ∧
    origImport (afterExit s w n) n =
      .ok ((match w.modules n with | some a => a | none => w.counter),
        afterExit s w n) := by
  unfold insideResult afterExit insideImport
  cases hmod : w.modules n with
  | some a =>
    have h1 : (s.enter w).2.modules n = some a := by
      rw [Session.enter_modules]
      simp [hmod, hkeep]
    have hr := importResult_cached (s.enter w).1 (s.enter w).2 n a h1
    have hsnd := importOrId_snd_cached (s.enter w).1 (s.enter w).2 n a h1
    have hsnap : (importOrId (s.enter w).1 (s.enter w).2 n).1.original_sys_modules
        = w.modules := by
      rw [(importOrId_fst_fields (s.enter w).1 (s.enter w).2 n).1]
      rfl
    have hafter : ((importOrId (s.enter w).1 (s.enter w).2 n).1.exit
        (importOrId (s.enter w).1 (s.enter w).2 n).2).modules n = some a := by
      rw [Session.exit_modules, hsnap, hmod]
    refine ⟨hr, hafter, ?_⟩
    simp [origImport, hafter]
  | none =>
    have h1 : (s.enter w).2.modules n = none := by
      rw [Session.enter_modules]
      simp [hmod]
    have hr : importResult (s.enter w).1 (s.enter w).2 n = some w.counter := by
      rw [importResult_fresh (s.enter w).1 (s.enter w).2 n h1 hres]
      rfl
    have hsnd := importOrId_snd_fresh (s.enter w).1 (s.enter w).2 n h1 hres
    have hsnap : (importOrId (s.enter w).1 (s.enter w).2 n).1.original_sys_modules
        = w.modules := by
      rw [(importOrId_fst_fields (s.enter w).1 (s.enter w).2 n).1]
      rfl
    have hafter : ((importOrId (s.enter w).1 (s.enter w).2 n).1.exit
        (importOrId (s.enter w).1 (s.enter w).2 n).2).modules n
        = some w.counter := by
      rw [Session.exit_modules, hsnap, hmod, hsnd]
      show ((s.enter w).2.modules.insert n (s.enter w).2.counter) n
          = some w.counter
      rw [Dict.insert_same]
      rfl
    refine ⟨hr, hafter, ?_⟩
    simp [origImport, hafter]

/-- Claim C6 witness: `keptmod` is kept global by `c6s` and first imported
inside the session (fresh module 0); after exit the registry still maps it
to module 0 and an outside import returns the identical module 0. -/
theorem c6_witness :
    insideResult c6s c6w "keptmod" = some (match c6w.modules "keptmod" with
      | some a => a
      | none => c6w.counter) ∧
    (afterExit c6s c6w "keptmod").modules "keptmod"
        = some (match c6w.modules "keptmod" with
      | some a => a
      | none => c6w.counter) ∧
    origImport (afterExit c6s c6w "keptmod") "keptmod" =
      .ok ((match c6w.modules "keptmod" with
              | some a => a
              | none => c6w.counter),
        afterExit c6s c6w "keptmod") :=
  c6_keep_global_shared_identity c6s c6w "keptmod" (by decide) (by decide)

/-- Claim C5 (amended): for a name `n` that is neither protected nor kept by
either session and is present in the registry at entry (as module `a`, with
identity older than the world's counter), the inside import yields the
fresh module `w.counter`, distinct from `a`; after exit the registry maps
`n` back to the outer `a` (so an outside import after exit yields an object
distinct from the session's); and a second session entered on the post-exit
world yields yet another fresh module `w.counter + 1`, distinct from both.
The restriction to names present at entry is forced: for a name absent from
the entry snapshot the session's object leaks and an outside import after
exit returns the identical object (see the counterexample). -/
theorem c5_isolation_for_snapshot_names (s t : Session) (w : World)
    (n : String) (a : ModuleId)
    (hprot : n ∉ protectedNames)
    (hkeepS : n ∉ s.keep_global) (hkeepT : n ∉ t.keep_global)
    (hmod : w.modules n = some a) (hlt : a < w.counter)
    (hres1 : resolvable (s.enter w).2 n = true)
    (hres2 : resolvable (t.enter (afterExit s w n)).2 n = true) :
    insideResult s w n = some w.counter ∧
    w.counter ≠ a ∧
    (afterExit s w n).modules n = some a ∧
    (afterExit s w n).counter = w.counter + 1 ∧
    insideResult t (afterExit s w n) n = some (w.counter + 1) ∧
    w.counter + 1 ≠ w.counter ∧ w.counter + 1 ≠ a := by
  unfold afterExit insideImport at hres2
  unfold insideResult afterExit insideImport
  have h1 : (s.enter w).2.modules n = none := by
    rw [Session.enter_modules]
    simp [hmod, hprot, hkeepS]
  have hr1 : importResult (s.enter w).1 (s.enter w).2 n = some w.counter := by
    rw [importResult_fresh (s.enter w).1 (s.enter w).2 n h1 hres1]
    rfl
  have hsnd := importOrId_snd_fresh (s.enter w).1 (s.enter w).2 n h1 hres1
  have hsnap : (importOrId (s.enter w).1 (s.enter w).2 n).1.original_sys_modules
      = w.modules := by
    rw [(importOrId_fst_fields (s.enter w).1 (s.enter w).2 n).1]
    rfl
  have hafter : ((importOrId (s.enter w).1 (s.enter w).2 n).1.exit
      (importOrId (s.enter w).1 (s.enter w).2 n).2).modules n = some a := by
    rw [Session.exit_modules, hsnap, hmod]
  have hcounter : ((importOrId (s.enter w).1 (s.enter w).2 n).1.exit
      (importOrId (s.enter w).1 (s.enter w).2 n).2).counter
      = w.counter + 1 := by
    rw [Session.exit_counter, hsnd]
    rfl
  have h2 : (t.enter ((importOrId (s.enter w).1 (s.enter w).2 n).1.exit
      (importOrId (s.enter w).1 (s.enter w).2 n).2)).2.modules n = none := by
    rw [Session.enter_modules]
    simp [hafter, hprot, hkeepT]
  have hr2 := importResult_fresh
    (t.enter ((importOrId (s.enter w).1 (s.enter w).2 n).1.exit
      (importOrId (s.enter w).1 (s.enter w).2 n).2)).1
    (t.enter ((importOrId (s.enter w).1 (s.enter w).2 n).1.exit
      (importOrId (s.enter w).1 (s.enter w).2 n).2)).2
    n h2 hres2
  rw [Session.enter_counter, hcounter] at hr2
  exact ⟨hr1, hlt.ne', hafter, hcounter, hr2, Nat.succ_ne_self w.counter,
    (hlt.trans (Nat.lt_succ_self w.counter)).ne'⟩

/-- Claim C5 witness: `pkgA` is cached outside as module 0; inside the
session it resolves to the fresh module 1, after exit the registry holds
module 0 again, and a second session's import yields module 2 — three
distinct objects. -/
theorem c5_witness :
    insideResult s0 w0 "pkgA" = some 1 ∧
    (1 : ModuleId) ≠ 0 ∧
    (afterExit s0 w0 "pkgA").modules "pkgA" = some 0 ∧
    (afterExit s0 w0 "pkgA").counter = 2 ∧
    insideResult s0 (afterExit s0 w0 "pkgA") "pkgA" = some 2 ∧
    (2 : ModuleId) ≠ 1 ∧ (2 : ModuleId) ≠ 0 :=
  c5_isolation_for_snapshot_names s0 s0 w0 "pkgA" 0 (by decide) (by decide)
    (by decide) (by decide) (by decide) (by decide) (by decide)

/-- Claim C5 counterexample: `newmod` is neither protected nor kept, but it
is absent from the registry at entry.  Importing it first inside the session
yields module 1, and after exit an outside import returns the identical
module 1 — not a distinct object, contradicting the claim as stated. -/
theorem c5_counterexample :
    protectedNames.contains "newmod" = false ∧
    s0.keep_global.contains "newmod" = false ∧
    insideResult s0 w0 "newmod" = some 1 ∧
    origImport (afterExit s0 w0 "newmod") "newmod"
        = .ok (1, afterExit s0 w0 "newmod") := by
  refine ⟨by decide, by decide, by decide, ?_⟩
  rfl

end Subsession
